import Mathlib

/-!
Verification of the CNN-tutorial pipeline (`02-CustomCNN.ipynb`).

The notebook is a thin orchestration layer over a deep-learning framework:
it configures two directory-scanning data generators, builds a fixed
sequential layer stack, compiles and trains it, and serializes the result.
We embed the notebook's own configuration (the layer stack, the generator
settings, the direct file write used to save the architecture) directly
from the source.  Behaviour that lives inside the framework and is not
part of the repository (layer forward semantics, dropout modes, shuffle
ordering, save/load, data-source validation, the training loop) is
modelled from the specification's contracts; each such definition says so
in its doc comment.
-/

namespace CNNTutorial

/-- Padding mode of a convolution layer.  The source passes
`padding='same'` explicitly on the first convolution of each block and
omits the argument on the second; the framework's default for an omitted
`padding` argument is `'valid'`. -/
inductive Padding where
  | same
  | valid
deriving DecidableEq

/-- Activation kinds used by the notebook: `Activation('relu')` and
`Activation('softmax')`. -/
inductive ActKind where
  | relu
  | softmax
deriving DecidableEq

/-- Layer variants of the data model: Conv2D(filters, kernel_size,
padding), Activation(kind), MaxPool2D(pool_size), Dropout(rate), Flatten,
Dense(units). -/
inductive LayerSpec where
  | conv2d (filters : ℕ) (kh kw : ℕ) (padding : Padding)
  | activation (kind : ActKind)
  | maxPooling2d (ph pw : ℕ)
  | dropout (rate : ℚ)
  | flattenL
  | dense (units : ℕ)
deriving DecidableEq

/-- `input_shape = (160, 160, 3)` from the notebook. -/
def input_shape : ℕ × ℕ × ℕ := (160, 160, 3)

/-- `num_classes = 10` from the notebook. -/
def num_classes : ℕ := 10

/-- A `Sequential` model is an ordered list of layers; `add` appends one
layer at the end, mirroring `model.add(...)`. -/
def addLayer (m : List LayerSpec) (l : LayerSpec) : List LayerSpec :=
  m ++ [l]

/-- The model of the notebook, built exactly as the source builds it:
an empty `Sequential()` followed by the eighteen `model.add(...)` calls
of the model-definition cell, in source order.  Omitted `padding`
arguments are the framework default `valid`; omitted `pool_size`
components and kernel sizes are written out. -/
def customModel : List LayerSpec :=
  addLayer (addLayer (addLayer (addLayer (addLayer (addLayer (addLayer
  (addLayer (addLayer (addLayer (addLayer (addLayer (addLayer (addLayer
  (addLayer (addLayer (addLayer (addLayer []
    (.conv2d 32 3 3 .same))
    (.activation .relu))
    (.conv2d 32 3 3 .valid))
    (.activation .relu))
    (.maxPooling2d 2 2))
    (.dropout (1/4)))
    (.conv2d 64 3 3 .same))
    (.activation .relu))
    (.conv2d 64 3 3 .valid))
    (.activation .relu))
    (.maxPooling2d 2 2))
    (.dropout (1/4)))
    .flattenL)
    (.dense 512))
    (.activation .relu))
    (.dropout (1/2)))
    (.dense num_classes))
    (.activation .softmax)

/-- Tensor shapes flowing through the stack: a 3-D feature map
(height, width, channels) or a flattened 1-D vector. -/
inductive Shape where
  | img (h w c : ℕ)
  | vec (n : ℕ)
deriving DecidableEq

/-- Output shape of one layer on an input shape, `none` on a shape
mismatch.  `same` convolution preserves height and width; `valid`
convolution shrinks each spatial dimension by `kernel − 1`; max-pooling
(stride = pool size, valid padding) maps `h` to `(h − ph) / ph + 1`;
flatten collapses `h·w·c`; dense maps a vector to its unit count
(and acts on the last axis of a feature map). -/
def layerOutShape : LayerSpec → Shape → Option Shape
  | .conv2d f _ _ .same, .img h w _ => some (.img h w f)
  | .conv2d f kh kw .valid, .img h w _ =>
      if kh ≤ h ∧ kw ≤ w then some (.img (h - kh + 1) (w - kw + 1) f) else none
  | .conv2d _ _ _ _, .vec _ => none
  | .activation _, s => some s
  | .maxPooling2d ph pw, .img h w c =>
      if ph ≤ h ∧ pw ≤ w ∧ 0 < ph ∧ 0 < pw then
        some (.img ((h - ph) / ph + 1) ((w - pw) / pw + 1) c)
      else none
  | .maxPooling2d _ _, .vec _ => none
  | .dropout _, s => some s
  | .flattenL, .img h w c => some (.vec (h * w * c))
  | .flattenL, .vec n => some (.vec n)
  | .dense u, .vec _ => some (.vec u)
  | .dense u, .img h w _ => some (.img h w u)

/-- Shape of a layer stack: thread `layerOutShape` through the list. -/
def modelShape (m : List LayerSpec) (s : Shape) : Option Shape :=
  m.foldl (fun acc l => acc.bind (layerOutShape l)) (some s)

/-- Kind of a layer, for comparing the stack against the spec's
coarse-grained pattern (activations keep their function, since the spec
distinguishes the inner activations from the final softmax). -/
inductive LayerKind where
  | conv
  | actRelu
  | actSoftmax
  | pool
  | drop
  | flat
  | dens
deriving DecidableEq

/-- Kind of a layer specification. -/
def layerKind : LayerSpec → LayerKind
  | .conv2d _ _ _ _ => .conv
  | .activation .relu => .actRelu
  | .activation .softmax => .actSoftmax
  | .maxPooling2d _ _ => .pool
  | .dropout _ => .drop
  | .flattenL => .flat
  | .dense _ => .dens

/-- The kind sequence of the notebook's model. -/
def customKinds : List LayerKind :=
  customModel.map layerKind

/-- The spec's block `convolution → activation → pooling → dropout`. -/
def specBlock : List LayerKind :=
  [.conv, .actRelu, .pool, .drop]

/-- `k` repetitions of the spec's block. -/
def repSpecBlock : ℕ → List LayerKind
  | 0 => []
  | k + 1 => specBlock ++ repSpecBlock k

/-- The spec's tail `flatten → dense → activation → dropout → dense →
softmax`. -/
def specTail : List LayerKind :=
  [.flat, .dens, .actRelu, .drop, .dens, .actSoftmax]

/-- The stack pattern the spec sentence describes: the block repeated `k`
times, then the tail. -/
def specPattern (k : ℕ) : List LayerKind :=
  repSpecBlock k ++ specTail

/-- The per-block pattern the code actually uses: two
convolution/activation pairs, then pooling and dropout. -/
def actualBlock : List LayerKind :=
  [.conv, .actRelu, .conv, .actRelu, .pool, .drop]

/-- The stack pattern of the code: the double-convolution block twice,
then the spec's tail. -/
def actualPattern : List LayerKind :=
  actualBlock ++ actualBlock ++ specTail

/-! ### Value-level forward semantics

The numerical engine is out of scope of the repository, so the forward
transformation of each layer variant is modelled from the spec's
contracts (§3, §4.2 and the glossary) over exact reals.  Feature maps
are total index functions; shape parameters mark where a layer must know
the extent of its input (zero padding, flattening). -/

/-- A 3-D feature map: value at (row, column, channel). -/
def Tensor3 : Type := ℕ → ℕ → ℕ → ℝ

/-- A flat vector of activations. -/
def Vec : Type := ℕ → ℝ

/-- Kernel weights of a convolution, indexed by (kernel row, kernel
column, input channel, output filter). -/
def ConvKernel : Type := ℕ → ℕ → ℕ → ℕ → ℝ

/-- Dense-layer weights, indexed by (input unit, output unit). -/
def DenseW : Type := ℕ → ℕ → ℝ

/-- Modelled from the spec: reading a feature map of extent `h × w` at a
possibly out-of-range integer position yields the zero padding. -/
noncomputable def padGet (h w : ℕ) (x : Tensor3) (i j : ℤ) (c : ℕ) : ℝ :=
  if 0 ≤ i ∧ i < (h : ℤ) ∧ 0 ≤ j ∧ j < (w : ℤ) then x i.toNat j.toNat c else 0

/-- Modelled from the spec: a 3×3 convolution with `'same'` padding over
an `h × w` input with `cin` channels — each output position is the bias
plus the kernel-weighted sum over the zero-padded 3×3 neighbourhood and
all input channels, so height and width are preserved. -/
noncomputable def conv2dSame (h w cin : ℕ) (ker : ConvKernel) (bias : Vec)
    (x : Tensor3) : Tensor3 :=
  fun i j f =>
    bias f + ∑ di ∈ Finset.range 3, ∑ dj ∈ Finset.range 3,
      ∑ c ∈ Finset.range cin,
        ker di dj c f * padGet h w x ((i : ℤ) + di - 1) ((j : ℤ) + dj - 1) c

/-- Modelled from the spec: a 3×3 convolution with `'valid'` padding —
no padding, so output position (i, j) reads input rows i..i+2 and
columns j..j+2, shrinking each spatial dimension by 2. -/
noncomputable def conv2dValid (cin : ℕ) (ker : ConvKernel) (bias : Vec)
    (x : Tensor3) : Tensor3 :=
  fun i j f =>
    bias f + ∑ di ∈ Finset.range 3, ∑ dj ∈ Finset.range 3,
      ∑ c ∈ Finset.range cin,
        ker di dj c f * x (i + di) (j + dj) c

/-- Modelled from the spec: ReLU on a feature map. -/
noncomputable def relu3 (x : Tensor3) : Tensor3 :=
  fun i j c => max (x i j c) 0

/-- Modelled from the spec: ReLU on a vector. -/
noncomputable def relu1 (x : Vec) : Vec :=
  fun i => max (x i) 0

/-- Modelled from the spec: 2×2 max-pooling with stride 2 — each output
position is the maximum of its 2×2 input window. -/
noncomputable def maxPool2 (x : Tensor3) : Tensor3 :=
  fun i j c =>
    max (max (x (2 * i) (2 * j) c) (x (2 * i) (2 * j + 1) c))
        (max (x (2 * i + 1) (2 * j) c) (x (2 * i + 1) (2 * j + 1) c))

/-- Modelled from the spec: in evaluation/inference mode a Dropout layer
is the identity transformation (the rate is ignored). -/
def dropoutEval3 (_rate : ℚ) (x : Tensor3) : Tensor3 := x

/-- Modelled from the spec: evaluation-mode Dropout on a vector. -/
def dropoutEval1 (_rate : ℚ) (x : Vec) : Vec := x

/-- Modelled from the spec: in training mode a Dropout layer zeroes each
unit selected by the (independently sampled) mask and rescales the
surviving units by 1/(1 − rate).  The random draw itself is outside the
embedding; the mask is an arbitrary parameter. -/
noncomputable def dropoutTrain1 (rate : ℝ) (mask : ℕ → Bool) (x : Vec) : Vec :=
  fun i => if mask i then 0 else x i / (1 - rate)

/-- Modelled from the spec: Flatten collapses an `· × w × c` feature map
row-major into one vector, sample index `i·w·c + j·c + k ↦ (i, j, k)`. -/
def flatten3 (w c : ℕ) (x : Tensor3) : Vec :=
  fun n => x (n / (w * c)) (n / c % w) (n % c)

/-- Modelled from the spec: a fully connected layer over `nIn` inputs —
bias plus the weighted sum of all inputs. -/
noncomputable def denseF (nIn : ℕ) (wt : DenseW) (bias : Vec) (x : Vec) : Vec :=
  fun o => bias o + ∑ i ∈ Finset.range nIn, wt i o * x i

/-- Modelled from the spec's glossary: softmax over `n` raw scores,
`exp (z i)` normalized by the sum of all `n` exponentials. -/
noncomputable def softmax (n : ℕ) (z : Vec) : Vec :=
  fun i => Real.exp (z i) / ∑ j ∈ Finset.range n, Real.exp (z j)

/-- The parameter state of the notebook's model: kernels and biases of
the four convolutions and weights and biases of the two dense layers,
in stack order.  Values are arbitrary — randomly initialized or
trained. -/
structure CNNParams where
  k1 : ConvKernel
  b1 : Vec
  k2 : ConvKernel
  b2 : Vec
  k3 : ConvKernel
  b3 : Vec
  k4 : ConvKernel
  b4 : Vec
  dw1 : DenseW
  db1 : Vec
  dw2 : DenseW
  db2 : Vec

/-- Forward pass of `customModel` in evaluation mode on a 160×160×3
input: the eighteen layers of the model-definition cell applied in
order, Dropout in its evaluation-mode (identity) semantics, with the
spatial extents dictated by the shape computation
(160 → 158 → 79 → 77 → 38 before Flatten). -/
noncomputable def customForwardEval (p : CNNParams) (x : Tensor3) : Vec :=
  let a1 := conv2dSame 160 160 3 p.k1 p.b1 x
  let a2 := relu3 a1
  let a3 := conv2dValid 32 p.k2 p.b2 a2
  let a4 := relu3 a3
  let a5 := maxPool2 a4
  let a6 := dropoutEval3 (1/4) a5
  let c1 := conv2dSame 79 79 32 p.k3 p.b3 a6
  let c2 := relu3 c1
  let c3 := conv2dValid 64 p.k4 p.b4 c2
  let c4 := relu3 c3
  let c5 := maxPool2 c4
  let c6 := dropoutEval3 (1/4) c5
  let v0 := flatten3 38 64 c6
  let v1 := denseF (38 * 38 * 64) p.dw1 p.db1 v0
  let v2 := relu1 v1
  let v3 := dropoutEval1 (1/2) v2
  let lg := denseF 512 p.dw2 p.db2 v3
  softmax num_classes lg

/-- The same layer chain with every Dropout layer removed. -/
noncomputable def customForwardNoDropout (p : CNNParams) (x : Tensor3) : Vec :=
  let a1 := conv2dSame 160 160 3 p.k1 p.b1 x
  let a2 := relu3 a1
  let a3 := conv2dValid 32 p.k2 p.b2 a2
  let a4 := relu3 a3
  let a5 := maxPool2 a4
  let c1 := conv2dSame 79 79 32 p.k3 p.b3 a5
  let c2 := relu3 c1
  let c3 := conv2dValid 64 p.k4 p.b4 c2
  let c4 := relu3 c3
  let c5 := maxPool2 c4
  let v0 := flatten3 38 64 c5
  let v1 := denseF (38 * 38 * 64) p.dw1 p.db1 v0
  let v2 := relu1 v1
  let lg := denseF 512 p.dw2 p.db2 v2
  softmax num_classes lg

/-! ### Data generators (source cells 5 and 6) -/

/-- An `ImageDataGenerator(...)` configuration; the notebook only sets
`rescale`. -/
structure ImageDataGeneratorCfg where
  rescale : ℚ
deriving DecidableEq

/-- `train_datagen = ImageDataGenerator(rescale=1./255)`. -/
def train_datagen : ImageDataGeneratorCfg := ⟨1 / 255⟩

/-- `valid_datagen = ImageDataGenerator(rescale=1./255)`. -/
def valid_datagen : ImageDataGeneratorCfg := ⟨1 / 255⟩

/-- A `flow_from_directory(...)` configuration. -/
structure FlowCfg where
  directory : String
  batch_size : ℕ
  class_mode : String
  target_size : ℕ × ℕ
  shuffle : Bool
deriving DecidableEq

/-- `train_generator`: the source passes directory, `batch_size=64`,
`class_mode='categorical'` and `target_size=(160,160)`; `shuffle` is
omitted and the framework default is `True`. -/
def train_generator : FlowCfg :=
  ⟨"imagenette-160/train", 64, "categorical", (160, 160), true⟩

/-- `valid_generator`: the source passes directory, `shuffle=False`,
`class_mode='categorical'` and `target_size=(160,160)`; `batch_size` is
omitted and the framework default is 32. -/
def valid_generator : FlowCfg :=
  ⟨"imagenette-160/val", 32, "categorical", (160, 160), false⟩

/-- Modelled from the spec: the generator hands each pixel channel value
to the model multiplied by its `rescale` factor. -/
def applyRescale (g : ImageDataGeneratorCfg) (px : ℚ) : ℚ :=
  g.rescale * px

/-- Modelled from the spec: the sample order a generator uses for a
given epoch.  With `shuffle` the order is re-randomized at the start of
every epoch (`reshuffle` is the per-epoch random draw, outside the
embedding); without it the order is the discovery order, the same for
every epoch. -/
def epochOrder (cfg : FlowCfg) (reshuffle : ℕ → List ℕ)
    (discovery : List ℕ) (epoch : ℕ) : List ℕ :=
  if cfg.shuffle then reshuffle epoch else discovery

/-! ### Data-source validation (spec §4.1, §7) -/

/-- The spec's `DataSourceError` taxonomy: bad path, empty class set,
undecodable image. -/
inductive DataSourceError where
  | badPath
  | emptyClasses
  | undecodableImage
deriving DecidableEq

/-- One class subdirectory: its name and, for each image file in it,
whether the image decodes. -/
structure ClassDir where
  name : String
  imagesDecodable : List Bool
deriving DecidableEq

/-- Modelled from the spec: opening a Data Source on a directory.
`none` stands for a directory that does not exist.  Fails with a
`DataSourceError` if the directory does not exist, contains zero class
subdirectories, or contains an image that cannot be decoded; otherwise
yields the discovered classes. -/
def openDataSource (root : Option (List ClassDir)) :
    Except DataSourceError (List ClassDir) :=
  match root with
  | none => .error .badPath
  | some cs =>
      if cs.isEmpty then .error .emptyClasses
      else if cs.any (fun c => c.imagesDecodable.any (fun ok => !ok)) then
        .error .undecodableImage
      else .ok cs

/-- Modelled from the spec: the pipeline opens the Data Source first and
only hands the opened source to the training step; a failed open
propagates before the training function is ever applied. -/
def runPipeline {α : Type} (root : Option (List ClassDir))
    (trainStep : List ClassDir → α) : Except DataSourceError α :=
  (openDataSource root).map trainStep

/-! ### Persistence (source cells 17 and 18, spec §4.4) -/

/-- The spec's `PersistenceError`, plus the I/O failure a direct write
can hit after the file is already open. -/
inductive PersistenceError where
  | unwritable
  | ioFailure
deriving DecidableEq

/-- A flat file system: path to file contents. -/
def FS : Type := String → Option String

/-- Update one path of a file system. -/
def fsWrite (fs : FS) (path content : String) : FS :=
  fun q => if q = path then some content else fs q

/-- Environment outcome of one direct file write: the path may be
unwritable (open fails), the write may fail midway leaving `written`
(a prefix of the content) behind, or everything succeeds. -/
inductive WriteOutcome where
  | success
  | notWritable
  | failMidWrite (written : String)
deriving DecidableEq

/-- The architecture save of the source, `open(path, 'w')` followed by
`f.write(model.to_json())`: opening with `'w'` truncates the target in
place and the write goes directly to the target path, so a failure after
the open leaves whatever was written at the target.  An unwritable path
makes the open itself fail, leaving the file system unchanged, and the
error is surfaced to the caller. -/
def saveArchitectureDirect (fs : FS) (path content : String)
    (outcome : WriteOutcome) : Except PersistenceError Unit × FS :=
  match outcome with
  | .notWritable => (.error .unwritable, fs)
  | .failMidWrite written => (.error .ioFailure, fsWrite fs path written)
  | .success => (.ok (), fsWrite fs path content)

/-- A model as persisted: its architecture description and its parameter
state. -/
structure KModel where
  arch : List LayerSpec
  params : CNNParams

/-- Modelled from the spec: `save_model` persists structure and
parameters together. -/
def save_model (m : KModel) : List LayerSpec × CNNParams :=
  (m.arch, m.params)

/-- Modelled from the spec: loading a full saved model reconstructs a
model from the persisted structure and parameters, with no other
input. -/
def load_model (s : List LayerSpec × CNNParams) : KModel :=
  ⟨s.1, s.2⟩

/-! ### Training orchestrator (spec §4.3) -/

/-- Modelled from the spec: one epoch of training folds the parameter
update over the epoch's batches in order. -/
def runEpoch {σ β : Type} (update : σ → β → σ) (p : σ) (batches : List β) : σ :=
  batches.foldl update p

/-- Modelled from the spec: a training run of `n` epochs from an
initial parameter state.  Each epoch updates the parameters over the
fixed batch list and emits one history entry — the per-epoch (training
loss/accuracy, validation loss/accuracy) measured on the updated
parameters. -/
def trainRun {σ β : Type} (update : σ → β → σ)
    (tStats vStats : σ → ℝ × ℝ) (init : σ) (batches : List β) :
    ℕ → σ × List ((ℝ × ℝ) × (ℝ × ℝ))
  | 0 => (init, [])
  | n + 1 =>
      let prev := trainRun update tStats vStats init batches n
      let p := runEpoch update prev.1 batches
      (p, prev.2 ++ [(tStats p, vStats p)])

/-! ### Helper lemmas -/

/-- Every softmax entry is non-negative. -/
theorem softmax_nonneg (n : ℕ) (z : Vec) (i : ℕ) : 0 ≤ softmax n z i := by
  unfold softmax
  apply div_nonneg (Real.exp_pos _).le
  exact Finset.sum_nonneg fun j _ => (Real.exp_pos _).le

/-- Softmax over a positive number of scores sums to 1. -/
theorem softmax_sum_one (n : ℕ) (z : Vec) (hn : 0 < n) :
    ∑ i ∈ Finset.range n, softmax n z i = 1 := by
  unfold softmax
  rw [← Finset.sum_div]
  exact div_self (ne_of_gt (Finset.sum_pos (fun j _ => Real.exp_pos _)
    (Finset.nonempty_range_iff.mpr hn.ne')))

/-- The forward pass ends in a softmax over `num_classes` scores. -/
theorem customForwardEval_is_softmax (p : CNNParams) (x : Tensor3) :
    ∃ z : Vec, customForwardEval p x = softmax num_classes z :=
  ⟨_, rfl⟩

/-- Length of `k` repetitions of the spec's four-layer block. -/
theorem repSpecBlock_length (k : ℕ) : (repSpecBlock k).length = 4 * k := by
  induction k with
  | zero => rfl
  | succ k ih =>
      simp [repSpecBlock, specBlock, ih]
      omega

/-- Length of the spec's claimed pattern with `k` blocks. -/
theorem specPattern_length (k : ℕ) : (specPattern k).length = 4 * k + 6 := by
  simp [specPattern, specTail, repSpecBlock_length]

/-! ### Claims -/

/-- Claim C1: for every parameter state (random or trained) and every
input tensor, the forward pass of the built model outputs a vector of
width `num_classes` = 10 — the stack maps the (160,160,3) input shape to
a 10-vector — whose entries are all non-negative and sum exactly to 1
(exact reals stand in for floats, so the tolerance is 0): a valid
probability distribution produced by the final Dense(num_classes)
followed by softmax. -/
theorem forward_output_prob_dist :
    modelShape customModel (.img 160 160 3) = some (.vec num_classes)
    ∧ num_classes = 10
    ∧ (∀ p x i, 0 ≤ customForwardEval p x i)
    ∧ (∀ p x, ∑ i ∈ Finset.range num_classes, customForwardEval p x i = 1) := by
  refine ⟨by decide, rfl, ?_, ?_⟩
  · intro p x i
    obtain ⟨z, hz⟩ := customForwardEval_is_softmax p x
    rw [hz]
    exact softmax_nonneg _ _ _
  · intro p x
    obtain ⟨z, hz⟩ := customForwardEval_is_softmax p x
    simp only [hz]
    exact softmax_sum_one _ _ (by norm_num [num_classes])

/-- Claim C2, counterexample: the model's layer-kind sequence is not the
spec-stated pattern "convolution → activation → pooling → dropout,
repeated, then flatten → dense → activation → dropout → dense → softmax"
for any repetition count: each block of the code holds two
convolution/activation pairs before the pooling. -/
theorem model_stack_not_spec_pattern : ¬ ∃ k, customKinds = specPattern k := by
  rintro ⟨k, h⟩
  have hl := congrArg List.length h
  rw [specPattern_length] at hl
  have h18 : customKinds.length = 18 := by decide
  have hk : k = 3 := by omega
  subst hk
  exact absurd h (by decide)

/-- Claim C2, amended: the model is the ordered stack
convolution → activation → convolution → activation → pooling → dropout,
that block twice (filters 32 then 64), then flatten → dense → activation
→ dropout → dense → softmax, exactly the eighteen layers of the source;
it maps the (160,160,3) input shape to a `num_classes`-vector and the
forward pass outputs a probability distribution. -/
theorem model_stack_structure :
    customKinds = actualPattern
    ∧ customModel =
        [.conv2d 32 3 3 .same, .activation .relu, .conv2d 32 3 3 .valid,
         .activation .relu, .maxPooling2d 2 2, .dropout (1/4),
         .conv2d 64 3 3 .same, .activation .relu, .conv2d 64 3 3 .valid,
         .activation .relu, .maxPooling2d 2 2, .dropout (1/4),
         .flattenL, .dense 512, .activation .relu, .dropout (1/2),
         .dense num_classes, .activation .softmax]
    ∧ modelShape customModel (.img 160 160 3) = some (.vec num_classes)
    ∧ (∀ p x, (∀ i, 0 ≤ customForwardEval p x i)
        ∧ ∑ i ∈ Finset.range num_classes, customForwardEval p x i = 1) := by
  refine ⟨by decide, rfl, by decide, ?_⟩
  intro p x
  obtain ⟨z, hz⟩ := customForwardEval_is_softmax p x
  constructor
  · intro i
    rw [hz]
    exact softmax_nonneg _ _ _
  · simp only [hz]
    exact softmax_sum_one _ _ (by norm_num [num_classes])

/-- Claim C3: the forward pass in evaluation mode, where every Dropout
layer is the identity, equals the forward pass with all Dropout layers
removed; in training mode a Dropout layer zeroes exactly the units its
mask selects and rescales the surviving units by 1/(1 − rate). -/
theorem dropout_eval_identity :
    (∀ p x, customForwardEval p x = customForwardNoDropout p x)
    ∧ (∀ r x, dropoutEval1 r x = x)
    ∧ (∀ r x, dropoutEval3 r x = x)
    ∧ (∀ (r : ℝ) mask x i, mask i = true → dropoutTrain1 r mask x i = 0)
    ∧ (∀ (r : ℝ) mask x i, mask i = false →
        dropoutTrain1 r mask x i = x i / (1 - r)) := by
  refine ⟨fun p x => rfl, fun r x => rfl, fun r x => rfl, ?_, ?_⟩
  · intro r mask x i h
    simp [dropoutTrain1, h]
  · intro r mask x i h
    simp [dropoutTrain1, h]

/-- Witness for C3: training-mode Dropout at rate 1/2 on the constant-3
vector, with an all-true mask, zeroes unit 0; with an all-false mask it
rescales unit 0 to 3 / (1 − 1/2). -/
theorem dropout_eval_identity_witness :
    dropoutTrain1 (1/2) (fun _ => true) (fun _ => (3 : ℝ)) 0 = 0
    ∧ dropoutTrain1 (1/2) (fun _ => false) (fun _ => (3 : ℝ)) 0
        = 3 / (1 - 1/2) :=
  ⟨dropout_eval_identity.2.2.2.1 (1/2) (fun _ => true) (fun _ => (3 : ℝ)) 0 rfl,
   dropout_eval_identity.2.2.2.2 (1/2) (fun _ => false) (fun _ => (3 : ℝ)) 0 rfl⟩

/-- Claim C4: both the training and the validation generator are
configured with the same rescale factor 1/255, every pixel channel value
is divided by 255 on its way to the model, and a raw value in [0, 255]
lands in [0, 1]. -/
theorem rescale_divides_by_255 :
    train_datagen.rescale = 1 / 255
    ∧ valid_datagen.rescale = 1 / 255
    ∧ train_datagen.rescale = valid_datagen.rescale
    ∧ (∀ px : ℚ, applyRescale train_datagen px = px / 255
        ∧ applyRescale valid_datagen px = px / 255)
    ∧ (∀ px : ℚ, 0 ≤ px → px ≤ 255 →
        0 ≤ applyRescale train_datagen px ∧ applyRescale train_datagen px ≤ 1) := by
  refine ⟨rfl, rfl, rfl, ?_, ?_⟩
  · intro px
    constructor <;>
      · simp [applyRescale, train_datagen, valid_datagen]
        ring
  · intro px h0 h255
    have he : applyRescale train_datagen px = px / 255 := by
      simp [applyRescale, train_datagen]
      ring
    rw [he]
    constructor
    · exact div_nonneg h0 (by norm_num)
    · rw [div_le_one (by norm_num)]
      exact h255

/-- Witness for C4: a raw pixel value of 51 rescales into [0, 1]. -/
theorem rescale_divides_by_255_witness :
    0 ≤ applyRescale train_datagen 51 ∧ applyRescale train_datagen 51 ≤ 1 :=
  rescale_divides_by_255.2.2.2.2 51 (by norm_num) (by norm_num)

/-- Claim C5: loading the artifact written by `save_model` reconstructs
a model with identical structure and identical parameter values, hence
identical architecture description and identical predictions on every
input. -/
theorem save_model_roundtrip :
    ∀ m : KModel,
      load_model (save_model m) = m
      ∧ (load_model (save_model m)).arch = m.arch
      ∧ ∀ x, customForwardEval (load_model (save_model m)).params x
          = customForwardEval m.params x :=
  fun _ => ⟨rfl, rfl, fun _ => rfl⟩

/-- Claim C6: the training generator is shuffled (the framework default
when the argument is omitted) and its per-epoch order is the fresh
random draw of that epoch; the validation generator has `shuffle=False`,
its order is the discovery order, and the order is identical across all
epochs. -/
theorem shuffle_order_semantics :
    train_generator.shuffle = true
    ∧ valid_generator.shuffle = false
    ∧ (∀ reshuffle discovery epoch,
        epochOrder train_generator reshuffle discovery epoch = reshuffle epoch)
    ∧ (∀ reshuffle discovery epoch,
        epochOrder valid_generator reshuffle discovery epoch = discovery)
    ∧ (∀ reshuffle discovery e e',
        epochOrder valid_generator reshuffle discovery e
          = epochOrder valid_generator reshuffle discovery e') :=
  ⟨rfl, rfl, fun _ _ _ => rfl, fun _ _ _ => rfl, fun _ _ _ _ => rfl⟩

/-- Claim C7: opening the Data Source on a missing directory, on a
directory with zero class subdirectories, or on one holding an
undecodable image fails with the corresponding `DataSourceError`, and a
failed open makes the pipeline fail before the training step is ever
applied. -/
theorem datasource_error_before_training :
    openDataSource none = .error .badPath
    ∧ openDataSource (some []) = .error .emptyClasses
    ∧ (∀ cs c, c ∈ cs → false ∈ c.imagesDecodable →
        openDataSource (some cs) = .error .undecodableImage)
    ∧ (∀ (α : Type) root (trainStep : List ClassDir → α) e,
        openDataSource root = .error e →
          runPipeline root trainStep = .error e) := by
  refine ⟨rfl, rfl, ?_, ?_⟩
  · intro cs c hc hbad
    have hne : cs.isEmpty = false := by
      cases cs with
      | nil => cases hc
      | cons a l => rfl
    have hany : cs.any (fun c => c.imagesDecodable.any (fun ok => !ok)) = true := by
      rw [List.any_eq_true]
      exact ⟨c, hc, by rw [List.any_eq_true]; exact ⟨false, hbad, rfl⟩⟩
    simp [openDataSource, hne, hany]
  · intro α root trainStep e h
    simp [runPipeline, h, Except.map]

/-- Witness for C7: one class directory whose second image does not
decode makes the open fail with `undecodableImage`, and a missing root
makes the pipeline fail with `badPath` before training. -/
theorem datasource_error_before_training_witness :
    openDataSource (some [⟨"n01440764", [true, false]⟩])
        = .error .undecodableImage
    ∧ runPipeline none (fun _ => (0 : ℕ)) = .error .badPath :=
  ⟨datasource_error_before_training.2.2.1 [⟨"n01440764", [true, false]⟩]
      ⟨"n01440764", [true, false]⟩ (by decide) (by decide),
   datasource_error_before_training.2.2.2 ℕ none (fun _ => (0 : ℕ))
      .badPath rfl⟩

/-- Claim C8, counterexample: the architecture save writes directly to
the target path, so a write that fails midway leaves a partial file
behind — here the target held `old-json`, the failed save of `new-json`
leaves the partial `new-` at the target, not the original content. -/
theorem save_architecture_leaves_partial_file :
    (saveArchitectureDirect
        (fun q => if q = "models/custom_architecture.json"
          then some "old-json" else none)
        "models/custom_architecture.json" "new-json"
        (.failMidWrite "new-")).1 = .error .ioFailure
    ∧ (saveArchitectureDirect
        (fun q => if q = "models/custom_architecture.json"
          then some "old-json" else none)
        "models/custom_architecture.json" "new-json"
        (.failMidWrite "new-")).2 "models/custom_architecture.json"
        = some "new-"
    ∧ some "new-" ≠ some "old-json" := by
  refine ⟨rfl, ?_, by decide⟩
  simp [saveArchitectureDirect, fsWrite]

/-- Claim C8, amended: an unwritable target makes the save fail with a
`PersistenceError` surfaced to the caller and leaves the file system
unchanged; a successful save puts the full content at the target; but
the write goes directly to the target (no temporary path, no atomic
rename), so an I/O failure during the write leaves exactly the partial
data at the target. -/
theorem save_architecture_error_semantics :
    (∀ fs path content,
        (saveArchitectureDirect fs path content .notWritable).1
          = .error .unwritable
        ∧ (saveArchitectureDirect fs path content .notWritable).2 = fs)
    ∧ (∀ fs path content,
        (saveArchitectureDirect fs path content .success).1 = .ok ()
        ∧ (saveArchitectureDirect fs path content .success).2 path
            = some content)
    ∧ (∀ fs path content written,
        (saveArchitectureDirect fs path content (.failMidWrite written)).1
          = .error .ioFailure
        ∧ (saveArchitectureDirect fs path content (.failMidWrite written)).2 path
            = some written) := by
  refine ⟨fun fs path content => ⟨rfl, rfl⟩, ?_, ?_⟩
  · intro fs path content
    exact ⟨rfl, by simp [saveArchitectureDirect, fsWrite]⟩
  · intro fs path content written
    exact ⟨rfl, by simp [saveArchitectureDirect, fsWrite]⟩

/-- Claim C9: two training runs over the same number of epochs that
start from the same seed-determined initial parameters and consume
batches in the same fixed order produce identical per-epoch
loss/accuracy histories. -/
theorem training_determinism (σ β : Type) (update : σ → β → σ)
    (tStats vStats : σ → ℝ × ℝ) (initOf : ℕ → σ) (seed1 seed2 : ℕ)
    (batches1 batches2 : List β) (n : ℕ)
    (hseed : seed1 = seed2) (hbatches : batches1 = batches2) :
    (trainRun update tStats vStats (initOf seed1) batches1 n).2
      = (trainRun update tStats vStats (initOf seed2) batches2 n).2 := by
  subst hseed
  subst hbatches
  rfl

/-- Witness for C9: two concrete two-epoch runs with seed 7 and batch
list [1, 2] coincide. -/
theorem training_determinism_witness :
    (trainRun (fun (s b : ℕ) => s + b)
        (fun s => ((s : ℝ), 0)) (fun s => ((s : ℝ), 0))
        ((fun s => s) 7) [1, 2] 2).2
      = (trainRun (fun (s b : ℕ) => s + b)
        (fun s => ((s : ℝ), 0)) (fun s => ((s : ℝ), 0))
        ((fun s => s) 7) [1, 2] 2).2 :=
  training_determinism ℕ ℕ (fun s b => s + b)
    (fun s => ((s : ℝ), 0)) (fun s => ((s : ℝ), 0))
    (fun s => s) 7 7 [1, 2] [1, 2] 2 rfl rfl

/-- Claim C10: a 3×3 `same` convolution preserves the spatial extent
while a 3×3 `valid` convolution (the default when the source omits the
padding argument, as the second convolution of each block does) shrinks
height and width by 2; threading the shapes through the stack, the
tensor entering Flatten is 38×38×64, so the first Dense layer receives
38·38·64 = 92416 inputs. -/
theorem conv_padding_shapes :
    (∀ h w c f, layerOutShape (.conv2d f 3 3 .same) (.img h w c)
        = some (.img h w f))
    ∧ (∀ h w c f, 3 ≤ h → 3 ≤ w →
        layerOutShape (.conv2d f 3 3 .valid) (.img h w c)
          = some (.img (h - 2) (w - 2) f))
    ∧ customModel[0]? = some (.conv2d 32 3 3 .same)
    ∧ customModel[2]? = some (.conv2d 32 3 3 .valid)
    ∧ customModel[6]? = some (.conv2d 64 3 3 .same)
    ∧ customModel[8]? = some (.conv2d 64 3 3 .valid)
    ∧ modelShape (customModel.take 12) (.img 160 160 3)
        = some (.img 38 38 64)
    ∧ modelShape (customModel.take 13) (.img 160 160 3)
        = some (.vec (38 * 38 * 64))
    ∧ 38 * 38 * 64 = 92416 := by
  refine ⟨fun h w c f => rfl, ?_, by decide, by decide, by decide, by decide,
    by decide, by decide, by decide⟩
  intro h w c f hh hw
  have hcond : 3 ≤ h ∧ 3 ≤ w := ⟨hh, hw⟩
  simp only [layerOutShape, if_pos hcond]
  have hh2 : h - 3 + 1 = h - 2 := by omega
  have hw2 : w - 3 + 1 = w - 2 := by omega
  rw [hh2, hw2]

/-- Witness for C10: the second convolution of the first block takes the
158×158 relu output down from 160×160 — at the concrete 160×160×3 input
extent the `valid` 3×3 convolution yields 158×158×32. -/
theorem conv_padding_shapes_witness :
    layerOutShape (.conv2d 32 3 3 .valid) (.img 160 160 3)
      = some (.img 158 158 32) :=
  conv_padding_shapes.2.1 160 160 3 32 (by decide) (by decide)

end CNNTutorial
